import Mathlib

/-!
Verification of the aiko-tv/eliza livestream co-host client
(packages/client-aiko): the cooperative task scheduler
(AikoClient.processNextTask and its 1-second setInterval driver), the
job bodies (readGifts/processGift, readChatAndReply/processComments,
readAndRespondToTopLikers, generateAndShareFreshThought,
readAgentChatAndReply, generateAndSharePeriodicAnimation, heartbeat)
and the data-gateway helpers (db/index.ts, constants.ts).

The embedding is shallow: job bodies are pure functions over the
outcomes of their external calls (text generation, speech synthesis,
HTTP fetches, the random draw), producing the ordered list of
observable effects the source would perform; the scheduler is a small
step relation in which a 1-second tick may fire while the body of a
previously started job is still suspended at an await point.
-/

namespace Aiko

/-! ## Scheduler data model (types.ts TaskPriority, AikoClient.taskQueue) -/

/-- Job descriptor, from the TaskPriority interface in types.ts.
Times are epoch milliseconds modelled as Int (JS number arithmetic on
integral values). -/
structure TaskPriority where
  name : String
  priority : Nat
  minInterval : Int
  lastRun : Option Int := none
  isRunning : Bool := false
deriving DecidableEq, Repr

/-- The fixed registry from the AikoClient field taskQueue, in source
order with the source's priorities and minInterval products evaluated. -/
def taskQueue : List TaskPriority :=
  [ { name := "readGifts", priority := 1, minInterval := 25000 },
    { name := "readChatAndReply", priority := 2, minInterval := 20000 },
    { name := "readAndRespondToTopLikers", priority := 3, minInterval := 90000 },
    { name := "generateFreshThought", priority := 4, minInterval := 30000 },
    { name := "readAgentChatAndReply", priority := 4, minInterval := 60000 },
    { name := "generatePeriodicAnimation", priority := 5, minInterval := 20000 },
    { name := "heartbeat", priority := 5, minInterval := 5000 } ]

/-- Eligibility test from processNextTask:
timeElapsed = now - (task.lastRun || 0); eligible when not running and
timeElapsed >= minInterval.  A missing lastRun is read as 0 by the
JS (task.lastRun || 0) expression. -/
def eligibleB (t : TaskPriority) (now : Int) : Bool :=
  !t.isRunning && decide (t.minInterval ≤ now - t.lastRun.getD 0)

/-- The taskQueue.find step of processNextTask fused with the
immediately following in-place mutation eligibleTask.isRunning = true:
returns the name of the first eligible task and the registry with that
task marked running, or none when no task is eligible. -/
def startEligible : List TaskPriority → Int → Option (String × List TaskPriority)
  | [], _ => none
  | t :: ts, now =>
    if eligibleB t now then
      some (t.name, { t with isRunning := true } :: ts)
    else
      match startEligible ts now with
      | none => none
      | some (n, ts') => some (n, t :: ts')

/-- The finally block of processNextTask applied to one descriptor:
first eligibleTask.lastRun = Date.now(), then
eligibleTask.isRunning = false. -/
def setFinished (n : String) (tEnd : Int) (t : TaskPriority) : TaskPriority :=
  if t.name = n then { t with lastRun := some tEnd, isRunning := false } else t

/-- The finally block of processNextTask over the registry (the found
task is a shared reference into the array, so the update lands in the
registry). -/
def completeTask (q : List TaskPriority) (n : String) (tEnd : Int) :
    List TaskPriority :=
  q.map (setFinished n tEnd)

/-- One whole processNextTask call run atomically (no interleaved
tick): now is Date.now() at entry, outcome is how the dispatched job
body resolved, tEnd is Date.now() in the finally block.  Returns the
updated registry and the console.error log lines; a body error is
logged, never rethrown. -/
def processNextTask (q : List TaskPriority) (now : Int)
    (outcome : Except String Unit) (tEnd : Int) :
    List TaskPriority × List String :=
  match startEligible q now with
  | none => (q, [])
  | some (n, q') =>
    let logs : List String :=
      match outcome with
      | .ok _ => []
      | .error e => ["Error executing task " ++ n ++ ": " ++ e]
    (completeTask q' n tEnd, logs)

/-- Scheduler state for the interleaved semantics: the registry plus
the names of the processNextTask invocations whose job body is still
awaited (started by a tick, finally block not yet run). -/
structure SchedState where
  queue : List TaskPriority
  outstanding : List String
deriving DecidableEq, Repr

/-- State right after the AikoClient constructor installs the
setInterval: fresh registry, nothing running. -/
def initState : SchedState := { queue := taskQueue, outstanding := [] }

/-- Interleaved small-step semantics of the scheduler.  setInterval
fires processNextTask every second without awaiting the previous call,
so a tick can run its synchronous prefix (find + isRunning = true)
while the body started by an earlier tick is still suspended; finish
is the resumption that runs a suspended call's finally block. -/
inductive SchedStep : SchedState → SchedState → Prop where
  | tick (s : SchedState) (now : Int) (n : String) (q' : List TaskPriority)
      (h : startEligible s.queue now = some (n, q')) :
      SchedStep s { queue := q', outstanding := s.outstanding ++ [n] }
  | finish (s : SchedState) (n : String) (tEnd : Int)
      (h : n ∈ s.outstanding) :
      SchedStep s { queue := completeTask s.queue n tEnd,
                    outstanding := s.outstanding.erase n }

/-- States reachable from the freshly constructed client. -/
def Reachable (s : SchedState) : Prop :=
  Relation.ReflTransGen SchedStep initState s

/-- Eligibility predicate as the spec words it (section 3): a missing
lastRun is treated as minus infinity, i.e. the job is eligible as soon
as it is not running.  Written from the spec for comparison with the
source's eligibleB. -/
def specEligible (t : TaskPriority) (now : Int) : Bool :=
  !t.isRunning &&
    (match t.lastRun with
     | none => true
     | some l => decide (t.minInterval ≤ now - l))

/-! ## Client shared state and job-body effects -/

/-- The two cross-job mutable fields of AikoClient that the spec's
frame condition is about. -/
structure ClientState where
  lastProcessedTimestamp : Option Int
  lastAgentChatMessageId : Option String
deriving DecidableEq, Repr

/-- Message content (the fields of eliza Content this client uses). -/
structure Content where
  text : String
deriving DecidableEq, Repr

/-- Outbound response record, from the AIResponse interface in
types.ts (fields this client populates). -/
structure AIResponse where
  id : String
  text : String
  agentId : String
  replyToUser : Option String := none
  replyToMessageId : Option String := none
  replyToMessage : Option String := none
  replyToHandle : Option String := none
  replyToPfp : Option String := none
  thought : Bool := false
  isGiftResponse : Option Bool := none
  giftId : Option String := none
  isTopLikerResponse : Bool := false
  animation : Option String := none
  audioUrl : Option String := none
deriving DecidableEq, Repr

/-- Observable external calls a job body performs, in program order.
generateSelection, generateResponse, generateAnimation and
generateThought are the generateText / generateMessageResponse calls
(the Generation Service); requestSpeech is this.generateSpeech (the
Speech Service plus CDN upload); the rest are Data Gateway calls and
console diagnostics. -/
inductive Effect where
  | generateSelection
  | generateResponse
  | generateAnimation
  | generateThought
  | requestSpeech (text : String)
  | publishResponse (r : AIResponse)
  | publishAnimation (agentId anim : String)
  | postRoomMessage (roomId agentId charName text : String)
      (audioUrl : Option String)
  | createMemory (key : String)
  | markGiftsRead (agentId : String) (ids : List String)
  | markCommentsRead (ids : List String)
  | updateStreamingStatus
  | ensureConnection (userId : String)
  | logError (msg : String)
  | logWarn (msg : String)
deriving DecidableEq, Repr

/-- uuid helper from the eliza library (external collaborator):
a deterministic injective renaming of strings, modelled as the
identity since only injectivity and determinism matter here. -/
def stringToUuid (s : String) : String := s

/-- JS String.prototype.trim whitespace test (the characters relevant
to generated text). -/
def jsIsWhitespace (c : Char) : Bool :=
  c = ' ' || c = '\t' || c = '\n' || c = '\r'

/-- JS String.prototype.trim: strip whitespace from both ends. -/
def jsTrim (s : String) : String :=
  String.mk (((s.toList.dropWhile jsIsWhitespace).reverse.dropWhile
    jsIsWhitespace).reverse)

/-- JS String.prototype.toLowerCase on the ASCII range the animation
catalog uses. -/
def jsToLower (s : String) : String :=
  String.mk (s.toList.map Char.toLower)

/-- The audioUrl of every publishResponse effect in a trace, in
order: publishedAudio effs = [none] says exactly one response was
published and it carried no audio. -/
def publishedAudio (effs : List Effect) : List (Option String) :=
  effs.filterMap fun e =>
    match e with
    | .publishResponse r => some r.audioUrl
    | _ => none

/-- The audioUrl of every postRoomMessage effect in a trace. -/
def postedRoomAudio (effs : List Effect) : List (Option String) :=
  effs.filterMap fun e =>
    match e with
    | .postRoomMessage _ _ _ _ u => some u
    | _ => none

/-- Whether an effect is a createMemory call. -/
def isCreateMemory : Effect → Bool
  | .createMemory _ => true
  | _ => false

/-- The replyToMessageId of every publishResponse effect in a trace. -/
def publishedReplyTo (effs : List Effect) : List (Option String) :=
  effs.filterMap fun e =>
    match e with
    | .publishResponse r => some r.replyToMessageId
    | _ => none

/-- Whether an effect is a publishResponse call. -/
def isPublishResponse : Effect → Bool
  | .publishResponse _ => true
  | _ => false

/-! ## JS truthiness for the gift speech draw -/

/-- The JS values that flow into the shouldTranscribe ternary in
processGift: the number literal 0.5 or a boolean comparison result. -/
inductive JSVal where
  | num (q : Rat)
  | bool (b : Bool)
deriving DecidableEq, Repr

/-- JS truthiness: a number is truthy iff nonzero, a boolean is
itself. -/
def truthy : JSVal → Bool
  | .num q => decide (q ≠ 0)
  | .bool b => b

/-- processGift: const shouldTranscribe =
gift.giftName === 'Ice Cream' ? 0.5 : Math.random() < 0.5.
rand is the Math.random() < 0.5 outcome.  Note the Ice Cream branch
produces the number 0.5, not a boolean. -/
def shouldTranscribe (giftName : String) (rand : Bool) : JSVal :=
  if giftName = "Ice Cream" then .num (1 / 2) else .bool rand

/-! ## Gift job (readGifts / processGift) -/

/-- A gift event as processGift consumes it. -/
structure Gift where
  giftDbId : String
  giftName : String
  giftCount : Nat
  coinsTotal : Nat
  senderPublicKey : String
  handle : String
  avatar : String
deriving DecidableEq, Repr

/-- Text and animation parsed out of a generated JSON response
(parseJSONObjectFromText result when non-null). -/
structure ParsedResponse where
  text : String
  animation : Option String := none
deriving DecidableEq, Repr

/-- processGift, parameterised by the outcomes of its external calls:
memOutcome is createMemory on the gift memory (its failure is caught
and logged), parsed is parseJSONObjectFromText of the generated text,
rand the speech draw, speech the generateSpeech outcome, publishOk the
fetch to the AI_RESPONSES endpoint.  Returns the effect trace and
either the boolean the function returns or the error it throws: the
generateSpeech await is not wrapped in any try/catch inside
processGift, so a speech failure aborts the rest of the body. -/
def processGift (agentId : String) (gift : Gift)
    (memOutcome : Except String Unit) (parsed : Option ParsedResponse)
    (rand : Bool) (speech : Except String String) (publishOk : Bool)
    (now : Int) : List Effect × Except String Bool :=
  let memEffs :=
    [Effect.createMemory (stringToUuid gift.senderPublicKey)] ++
      (match memOutcome with
       | .ok _ => []
       | .error e => [Effect.logError ("Failed to create gift memory: " ++ e)])
  let effs0 := memEffs ++ [Effect.generateResponse]
  match parsed with
  | none => (effs0 ++ [Effect.logError "Failed to parse gift response"], .ok false)
  | some p =>
    let st := shouldTranscribe gift.giftName rand
    if truthy st then
      match speech with
      | .error e => (effs0 ++ [Effect.requestSpeech p.text], .error e)
      | .ok url =>
        let body : AIResponse :=
          { id := stringToUuid (agentId ++ "-" ++ toString now),
            text := p.text, agentId := agentId,
            replyToUser := some gift.senderPublicKey,
            replyToHandle := some gift.handle,
            replyToPfp := some gift.avatar,
            isGiftResponse := some true, giftId := some gift.giftDbId,
            audioUrl := some url, animation := p.animation }
        let effs1 := effs0 ++ [Effect.requestSpeech p.text,
                               Effect.publishResponse body]
        if publishOk then
          (effs1 ++ [Effect.markGiftsRead agentId [gift.giftDbId]], .ok true)
        else
          (effs1, .ok false)
    else
      let body : AIResponse :=
        { id := stringToUuid (agentId ++ "-" ++ toString now),
          text := p.text, agentId := agentId,
          replyToUser := some gift.senderPublicKey,
          replyToHandle := some gift.handle,
          replyToPfp := some gift.avatar,
          isGiftResponse := some true, giftId := some gift.giftDbId,
          audioUrl := none, animation := p.animation }
      let effs1 := effs0 ++ [Effect.publishResponse body]
      if publishOk then
        (effs1 ++ [Effect.markGiftsRead agentId [gift.giftDbId]], .ok true)
      else
        (effs1, .ok false)

/-- Per-gift oracle bundle for the readGifts loop. -/
structure GiftRun where
  gift : Gift
  memOutcome : Except String Unit
  parsed : Option ParsedResponse
  rand : Bool
  speech : Except String String
  publishOk : Bool
deriving Repr

/-- The for loop of readGifts: each gift is processed to completion
before the next; an error thrown by processGift propagates out of
readGifts (readGifts has no try/catch). -/
def readGiftsLoop (agentId : String) (now : Int) :
    List GiftRun → List Effect × Except String Unit
  | [] => ([], .ok ())
  | g :: gs =>
    match processGift agentId g.gift g.memOutcome g.parsed g.rand g.speech
        g.publishOk now with
    | (effs, .error e) => (effs, .error e)
    | (effs, .ok _) =>
      let (effs', r) := readGiftsLoop agentId now gs
      (effs ++ effs', r)

/-- readGifts job entry point: fetches unread gifts and processes each
in order.  It never touches lastProcessedTimestamp or
lastAgentChatMessageId, so the client state passes through
unchanged. -/
def readGifts (st : ClientState) (agentId : String) (runs : List GiftRun)
    (now : Int) : ClientState × (List Effect × Except String Unit) :=
  (st, readGiftsLoop agentId now runs)

/-! ## Top-liker job (readAndRespondToTopLikers) -/

/-- A top-liker entry, from db/index.ts TopLiker. -/
structure TopLiker where
  handle : String
  pfp : String
  likeCount : Nat
deriving DecidableEq, Repr

/-- getRandomTopLiker from db/index.ts: null on empty list, otherwise
the entry at Math.floor(Math.random() * length), modelled by reducing
an arbitrary draw index modulo the length. -/
def getRandomTopLiker (topLikers : List TopLiker) (draw : Nat) :
    Option TopLiker :=
  if topLikers.isEmpty then none
  else topLikers.get? (draw % topLikers.length)

/-- readAndRespondToTopLikers, oracles: fetchOutcome for
fetchTopLikers, draw for the random index, parsed for the JSON parse
of the generated text, publishOk for the publish fetch.  Whole body is
wrapped in try/catch, and it never touches the two shared fields. -/
def readAndRespondToTopLikers (st : ClientState) (agentId : String)
    (fetchOutcome : Except String (List TopLiker)) (draw : Nat)
    (parsed : Option ParsedResponse) (publishOk : Bool) (now : Int) :
    ClientState × List Effect :=
  (st,
    match fetchOutcome with
    | .error e => [Effect.logError ("Failed to fetch top likers: " ++ e)]
    | .ok likers =>
      match getRandomTopLiker likers draw with
      | none => []
      | some liker =>
        [Effect.generateResponse] ++
          match parsed with
          | none => [Effect.logError "Failed to parse top liker response"]
          | some p =>
            [Effect.publishResponse
              { id := stringToUuid (agentId ++ "-" ++ toString now),
                text := p.text, agentId := agentId,
                animation := p.animation,
                replyToUser := some liker.handle,
                replyToHandle := some liker.handle,
                replyToPfp := some liker.pfp,
                isTopLikerResponse := true }] ++
              (if publishOk then []
               else [Effect.logError "Failed to post top liker response"]))

/-! ## Fresh-thought job (generateAndShareFreshThought) -/

/-- generateAndShareFreshThought: thoughtText is the generated text
(the early return fires on the empty, falsy string); the generateSpeech
await sits in its own try/catch, so a speech failure degrades to
speechUrl = undefined and the publish still happens. -/
def generateAndShareFreshThought (st : ClientState) (agentId : String)
    (thoughtText : String) (speech : Except String String)
    (publishOk : Bool) (now : Int) : ClientState × List Effect :=
  (st,
    [Effect.generateThought] ++
      if thoughtText = "" then []
      else
        let speechStep : Option String × List Effect :=
          match speech with
          | .ok url => (some url, [Effect.requestSpeech thoughtText])
          | .error e =>
            (none, [Effect.requestSpeech thoughtText,
                    Effect.logError ("Error generating speech: " ++ e)])
        speechStep.2 ++
          [Effect.publishResponse
            { id := stringToUuid (agentId ++ "-" ++ toString now),
              text := thoughtText, agentId := agentId,
              thought := true, audioUrl := speechStep.1 }] ++
          (if publishOk then []
           else [Effect.logError "Failed to post fresh thought"]))

/-! ## Periodic animation job (generateAndSharePeriodicAnimation) -/

/-- The animation catalog from constants.ts (the SITTING group is
commented out in getAllAnimations there). -/
def animationIdle : List String :=
  ["idle", "idle-2", "idle_basic", "idle_dwarf", "offensive_idle"]

/-- Head-movement animations from constants.ts. -/
def animationHead : List String :=
  ["acknowledging", "hard_head_nod", "head_nod_yes", "lengthy_head_nod",
   "sarcastic_head_nod", "shaking_head_no", "thoughtful_head_shake",
   "annoyed_head_shake"]

/-- Gesture animations from constants.ts. -/
def animationGestures : List String :=
  ["angry_gesture", "being_cocky", "dismissing_gesture",
   "happy_hand_gesture", "look_away_gesture", "relieved_sigh",
   "standing_clap"]

/-- Dancing animations from constants.ts. -/
def animationDancing : List String :=
  ["dancing_twerk", "hip_hop_dancing", "rumba_dancing", "silly_dancing",
   "capoeira"]

/-- Special animations from constants.ts. -/
def animationSpecial : List String :=
  ["appearing", "floating", "joyful_jump", "laughing", "super_excited",
   "walk_with_rifle", "weight_shift"]

/-- getAllAnimations from constants.ts: IDLE ++ HEAD ++ GESTURES ++
DANCING ++ SPECIAL (SITTING commented out). -/
def getAllAnimations : List String :=
  animationIdle ++ animationHead ++ animationGestures ++ animationDancing ++
    animationSpecial

/-- generateAndSharePeriodicAnimation: animation is the generated
text; it is trimmed and lowercased, checked against the catalog, and
on a miss the job only warns (the warning text mentions a default that
is never applied) and skips the publish. -/
def generateAndSharePeriodicAnimation (st : ClientState) (agentId : String)
    (animation : String) (publishOk : Bool) : ClientState × List Effect :=
  (st,
    [Effect.generateAnimation] ++
      (let cleanAnimation := jsToLower (jsTrim animation)
       if !(getAllAnimations.contains cleanAnimation) then
         [Effect.logWarn ("Invalid animation generated: " ++ cleanAnimation ++
           ", defaulting to idle")]
       else
         [Effect.publishAnimation agentId cleanAnimation] ++
           (if publishOk then []
            else [Effect.logError "Failed to post periodic animation"])))

/-! ## Heartbeat job -/

/-- heartbeat: a single updateStreamingStatus call. -/
def heartbeat (st : ClientState) : ClientState × List Effect :=
  (st, [Effect.updateStreamingStatus])

/-! ## Comment ingestion (readChatAndReply / processComments) -/

/-- A viewer comment, from db/index.ts IComment. -/
structure IComment where
  id : String
  user : String
  message : String
  handle : String := ""
  avatar : String := ""
  createdAt : Int := 0
deriving DecidableEq, Repr

/-- fetchUnreadComments from db/index.ts: a non-ok HTTP status throws
inside the function's own try, and the catch returns an object with an
empty comments array, so the caller never sees a fetch error.
response is the HTTP outcome (error covers both network failure and a
non-ok status). -/
def fetchUnreadComments (response : Except String (List IComment)) :
    List IComment :=
  match response with
  | .ok cs => cs
  | .error _ => []

/-- selectCommentToRespondTo: null on an empty batch, otherwise one
generateText call whose result is returned as the id, with the
sentinel string NONE mapped to null.  selectionText is the generated
text. -/
def selectCommentToRespondTo (comments : List IComment)
    (selectionText : String) : List Effect × Option String :=
  if comments.isEmpty then ([], none)
  else ([Effect.generateSelection],
        if selectionText = "NONE" then none else some selectionText)

/-- A let/const binding slot of the enclosing function scope: tdz
while the declaration statement has not yet executed (JS temporal dead
zone), val once it has. -/
inductive Binding (α : Type) where
  | tdz
  | val (v : α)
deriving DecidableEq, Repr

/-- Reading a binding: a tdz read throws ReferenceError. -/
def Binding.read {α : Type} : Binding α → Except String α
  | .tdz => .error "ReferenceError"
  | .val v => .ok v

/-- The userMessage object built in processComments. -/
structure UserMessage where
  content : Content
  userId : String
  agentId : String
deriving DecidableEq, Repr

/-- The slots of processComments's function scope that the bulk
memory loop reads: const userMessage, const userIdUUID and
const content, all declared after the loop in the source. -/
structure CommentScope where
  userMessage : Binding UserMessage
  userIdUUID : Binding String
  content : Binding Content

/-- The scope as it stands when the Promise.allSettled loop runs: the
three const declarations are all later in the function body, so every
slot is in its temporal dead zone. -/
def tdzCommentScope : CommentScope :=
  { userMessage := .tdz, userIdUUID := .tdz, content := .tdz }

/-- One iteration of the Promise.allSettled loop in processComments:
the object literal spreads userMessage, then reads userIdUUID and
content, in source order; with the declarations not yet executed every
read is a tdz read. -/
def commentMemoryIteration (agentId : String) (scope : CommentScope)
    (comment : IComment) : Except String (List Effect) := do
  let _um ← scope.userMessage.read
  let _uid ← scope.userIdUUID.read
  let c ← scope.content.read
  if c.text ≠ "" then
    return [Effect.createMemory (stringToUuid (comment.id ++ "-" ++ agentId))]
  else
    return []

/-- Promise.allSettled over the batch followed by the (unreachable)
effect collection: rejected promises contribute nothing. -/
def settledMemoryEffects (agentId : String) (scope : CommentScope)
    (comments : List IComment) : List Effect :=
  (comments.map (commentMemoryIteration agentId scope)).foldl
    (fun acc r =>
      match r with
      | .ok es => acc ++ es
      | .error _ => acc) []

/-- processComments, parameterised by the outcomes of its external
calls: markOutcome for markCommentsAsRead (failure caught and logged),
selectionText for the selection generateText, responseContent for
generateMessageResponse (null makes _generateResponse return undefined
and the subsequent property write throw a TypeError that propagates),
animationText for the animation generateText, speech for
generateSpeech (failure caught, degrades to no audio), publishStatus
for the publish fetch status.  Returns the effect trace and ok, or the
error the call throws.  At the Promise.allSettled loop the consts
userMessage, userIdUUID and content are still in their temporal dead
zone, hence the all-tdz scope. -/
def processComments (agentId : String) (comments : List IComment)
    (markOutcome : Except String Unit) (selectionText : String)
    (responseContent : Option Content) (animationText : String)
    (speech : Except String String) (publishStatus : Int) (now : Int) :
    List Effect × Except String Unit :=
  let commentIds := comments.map (·.id)
  if commentIds.isEmpty then ([], .ok ())
  else
    let markEffs :=
      [Effect.markCommentsRead commentIds] ++
        (match markOutcome with
         | .ok _ => []
         | .error e =>
           [Effect.logError ("Failed to mark comments as read: " ++ e)])
    let effs1 := markEffs ++ settledMemoryEffects agentId tdzCommentScope comments
    let selStep : List Effect × Option String :=
      match comments with
      | [c] => ([], some c.id)
      | _ => selectCommentToRespondTo comments selectionText
    let effs2 := effs1 ++ selStep.1
    match selStep.2 with
    | none => (effs2, .ok ())
    | some cid =>
      match comments.find? (fun c => c.id == cid) with
      | none =>
        (effs2 ++ [Effect.logError ("Selected comment not found: " ++ cid)],
         .ok ())
      | some selectedComment =>
        let content : Content := { text := selectedComment.message }
        let userIdUUID := stringToUuid selectedComment.user
        let effs3 := effs2 ++ [Effect.ensureConnection userIdUUID]
        let memEffs :=
          if content.text ≠ "" then
            [Effect.createMemory
              (stringToUuid (selectedComment.id ++ "-" ++ agentId))]
          else []
        let effs4 := effs3 ++ memEffs
        match responseContent with
        | none =>
          (effs4 ++ [Effect.generateResponse,
                     Effect.logError "No response from generateMessageResponse"],
           .error "TypeError")
        | some rc =>
          let respText := jsTrim rc.text
          let effs5 := effs4 ++ [Effect.generateResponse,
                                 Effect.generateAnimation]
          let speechStep : Option String × List Effect :=
            match speech with
            | .ok url => (some url, [Effect.requestSpeech respText])
            | .error e =>
              (none, [Effect.requestSpeech respText,
                      Effect.logError ("Failed to generate speech: " ++ e)])
          let body : AIResponse :=
            { id := stringToUuid (agentId ++ "-" ++ toString now),
              text := respText, agentId := agentId,
              replyToMessageId := some selectedComment.id,
              replyToMessage := some selectedComment.message,
              replyToUser := some selectedComment.user,
              replyToHandle := some selectedComment.handle,
              replyToPfp := some selectedComment.avatar,
              isGiftResponse := some false,
              audioUrl := speechStep.1,
              animation := some animationText }
          let effs6 := effs5 ++ speechStep.2 ++ [Effect.publishResponse body]
          (effs6 ++
            (if publishStatus ≠ 200 then
              [Effect.logError "Failed to post response to api"]
             else []), .ok ())

/-- readChatAndReply: fetch since the watermark, process a non-empty
batch, then set the watermark to the current time; the whole body is
in a try whose catch only logs, so an error thrown out of
processComments skips the watermark update. -/
def readChatAndReply (st : ClientState) (agentId : String)
    (response : Except String (List IComment))
    (markOutcome : Except String Unit) (selectionText : String)
    (responseContent : Option Content) (animationText : String)
    (speech : Except String String) (publishStatus : Int) (now : Int) :
    ClientState × List Effect :=
  let comments := fetchUnreadComments response
  if comments.length > 0 then
    match processComments agentId comments markOutcome selectionText
        responseContent animationText speech publishStatus now with
    | (effs, .ok _) => ({ st with lastProcessedTimestamp := some now }, effs)
    | (effs, .error e) =>
      (st, effs ++ [Effect.logError ("Error in readChatAndReply: " ++ e)])
  else
    ({ st with lastProcessedTimestamp := some now }, [])

/-! ## Peer-room chat job (readAgentChatAndReply) -/

/-- A peer-room message from fetchRoomMessages. -/
structure RoomMessage where
  id : String
  agentId : String
  agentName : String
  message : String
  createdAt : Int := 0
deriving DecidableEq, Repr

/-- The shared peer room id, AikoClient.ROOM_ID. -/
def aikoRoomId : String := "aiko-room"

/-- readAgentChatAndReply, oracles: fetchOutcome is fetchRoomMessages
(none models success = false, some the returned list), parsed the JSON
parse of the generated reply, speech the generateSpeech outcome
(failure caught, degrades to no audio).  On the successful reply path
the source updates lastAgentChatMessageId and also, on its last line,
lastProcessedTimestamp. -/
def readAgentChatAndReply (st : ClientState) (agentId charName : String)
    (isInChat : Bool) (fetchOutcome : Option (List RoomMessage))
    (parsed : Option ParsedResponse) (speech : Except String String)
    (now : Int) : ClientState × List Effect :=
  if !isInChat then (st, [])
  else
    match fetchOutcome with
    | none => (st, [])
    | some msgs =>
      match msgs.getLast? with
      | none => (st, [])
      | some latestMessage =>
      if st.lastAgentChatMessageId = some latestMessage.id then (st, [])
      else if latestMessage.agentId = agentId then
        ({ st with lastAgentChatMessageId := some latestMessage.id }, [])
      else
        let effs0 := [Effect.generateResponse]
        match parsed with
        | none => (st, effs0 ++ [Effect.logError "Failed to parse response"])
        | some p =>
          if p.text = "" then
            (st, effs0 ++ [Effect.logError "Failed to parse response"])
          else
            let speechStep : Option String × List Effect :=
              match speech with
              | .ok url => (some url, [Effect.requestSpeech p.text])
              | .error e =>
                (none, [Effect.requestSpeech p.text,
                        Effect.logError ("Failed to generate speech: " ++ e)])
            ({ st with lastAgentChatMessageId := some latestMessage.id,
                       lastProcessedTimestamp := some now },
             effs0 ++ speechStep.2 ++
               [Effect.postRoomMessage aikoRoomId agentId charName p.text
                 speechStep.1])

/-- Scheduler bookkeeping invariant: registry names are distinct, no
processNextTask invocation is outstanding twice, and a job descriptor
is marked running exactly while an invocation executing it is
outstanding. -/
def SchedInv (s : SchedState) : Prop :=
  (s.queue.map (·.name)).Nodup ∧ s.outstanding.Nodup ∧
    ∀ t ∈ s.queue, t.isRunning = true ↔ t.name ∈ s.outstanding

/-! ## Concrete scheduler traces -/

/-- Registry after a first tick at t = 1000000 started readGifts and
its body is still suspended. -/
def giftsRunningQueue : List TaskPriority :=
  [ { name := "readGifts", priority := 1, minInterval := 25000,
      isRunning := true },
    { name := "readChatAndReply", priority := 2, minInterval := 20000 },
    { name := "readAndRespondToTopLikers", priority := 3, minInterval := 90000 },
    { name := "generateFreshThought", priority := 4, minInterval := 30000 },
    { name := "readAgentChatAndReply", priority := 4, minInterval := 60000 },
    { name := "generatePeriodicAnimation", priority := 5, minInterval := 20000 },
    { name := "heartbeat", priority := 5, minInterval := 5000 } ]

/-- Registry after a second tick, one second later, also started
readChatAndReply while readGifts was still suspended. -/
def twoRunningQueue : List TaskPriority :=
  [ { name := "readGifts", priority := 1, minInterval := 25000,
      isRunning := true },
    { name := "readChatAndReply", priority := 2, minInterval := 20000,
      isRunning := true },
    { name := "readAndRespondToTopLikers", priority := 3, minInterval := 90000 },
    { name := "generateFreshThought", priority := 4, minInterval := 30000 },
    { name := "readAgentChatAndReply", priority := 4, minInterval := 60000 },
    { name := "generatePeriodicAnimation", priority := 5, minInterval := 20000 },
    { name := "heartbeat", priority := 5, minInterval := 5000 } ]

/-- Scheduler state with both readGifts and readChatAndReply started
and unfinished. -/
def twoRunningState : SchedState :=
  { queue := twoRunningQueue,
    outstanding := ["readGifts", "readChatAndReply"] }

/-- Scheduler state after the readChatAndReply invocation finished
(its tick completed, finally block ran at t = 1002000) while readGifts
is still suspended. -/
def afterChatFinishState : SchedState :=
  { queue := completeTask twoRunningQueue "readChatAndReply" 1002000,
    outstanding := ["readGifts"] }

/-! # Theorems -/

/-! ## Scheduler invariant lemmas -/

theorem eligibleB_isRunning_false {t : TaskPriority} {now : Int}
    (h : eligibleB t now = true) : t.isRunning = false := by
  have h1 := (Bool.and_eq_true _ _).mp h
  simpa using h1.1

theorem startEligible_names {q : List TaskPriority} {now : Int} {n : String}
    {q' : List TaskPriority} (h : startEligible q now = some (n, q')) :
    q'.map (·.name) = q.map (·.name) := by
  induction q generalizing q' with
  | nil => simp [startEligible] at h
  | cons t ts ih =>
    rw [startEligible] at h
    by_cases he : eligibleB t now = true
    · rw [if_pos he] at h
      obtain ⟨h1, h2⟩ := Prod.mk.injEq .. ▸ Option.some.inj h
      subst h2
      simp
    · rw [if_neg he] at h
      cases hse : startEligible ts now with
      | none => rw [hse] at h; exact absurd h (by simp)
      | some p =>
        obtain ⟨m, ts'⟩ := p
        rw [hse] at h
        obtain ⟨h1, h2⟩ := Prod.mk.injEq .. ▸ Option.some.inj h
        subst h1 h2
        simpa using ih hse

theorem startEligible_name_mem {q : List TaskPriority} {now : Int}
    {n : String} {q' : List TaskPriority}
    (h : startEligible q now = some (n, q')) : n ∈ q.map (·.name) := by
  induction q generalizing q' with
  | nil => simp [startEligible] at h
  | cons t ts ih =>
    rw [startEligible] at h
    by_cases he : eligibleB t now = true
    · rw [if_pos he] at h
      obtain ⟨h1, h2⟩ := Prod.mk.injEq .. ▸ Option.some.inj h
      simp [h1]
    · rw [if_neg he] at h
      cases hse : startEligible ts now with
      | none => rw [hse] at h; exact absurd h (by simp)
      | some p =>
        obtain ⟨m, ts'⟩ := p
        rw [hse] at h
        obtain ⟨h1, h2⟩ := Prod.mk.injEq .. ▸ Option.some.inj h
        subst h1
        simpa using Or.inr (ih hse)

theorem startEligible_inv {q : List TaskPriority} {now : Int} {n : String}
    {q' : List TaskPriority} (out : List String)
    (h : startEligible q now = some (n, q'))
    (hnames : (q.map (·.name)).Nodup)
    (hinv : ∀ t ∈ q, t.isRunning = true ↔ t.name ∈ out) :
    n ∉ out ∧ ∀ t ∈ q', t.isRunning = true ↔ t.name ∈ out ++ [n] := by
  induction q generalizing q' with
  | nil => simp [startEligible] at h
  | cons t ts ih =>
    rw [startEligible] at h
    by_cases he : eligibleB t now = true
    · rw [if_pos he] at h
      obtain ⟨h1, h2⟩ := Prod.mk.injEq .. ▸ Option.some.inj h
      subst h1 h2
      have hrun : t.isRunning = false := eligibleB_isRunning_false he
      have hnot : t.name ∉ out := by
        intro hmem
        have := (hinv t (by simp)).mpr hmem
        rw [hrun] at this
        exact Bool.false_ne_true this
      refine ⟨hnot, ?_⟩
      intro u hu
      rcases List.mem_cons.mp hu with rfl | hu'
      · simp
      · have hne : u.name ≠ t.name := by
          intro heq
          have : t.name ∈ ts.map (·.name) := heq ▸ List.mem_map_of_mem _ hu'
          exact (List.nodup_cons.mp (by simpa using hnames)).1 this
        have := hinv u (List.mem_cons_of_mem _ hu')
        simp [List.mem_append, hne, this]
    · rw [if_neg he] at h
      cases hse : startEligible ts now with
      | none => rw [hse] at h; exact absurd h (by simp)
      | some p =>
        obtain ⟨m, ts'⟩ := p
        rw [hse] at h
        obtain ⟨h1, h2⟩ := Prod.mk.injEq .. ▸ Option.some.inj h
        subst h1 h2
        have hnames' : (ts.map (·.name)).Nodup :=
          (List.nodup_cons.mp (by simpa using hnames)).2
        have hinv' : ∀ u ∈ ts, u.isRunning = true ↔ u.name ∈ out :=
          fun u hu => hinv u (List.mem_cons_of_mem _ hu)
        obtain ⟨hnot, hall⟩ := ih hse hnames' hinv'
        refine ⟨hnot, ?_⟩
        intro u hu
        rcases List.mem_cons.mp hu with rfl | hu'
        · have hne : u.name ≠ m := by
            intro heq
            have : m ∈ ts.map (·.name) := startEligible_name_mem hse
            exact (List.nodup_cons.mp (by simpa using hnames)).1 (heq ▸ this)
          have := hinv u (by simp)
          simp [List.mem_append, hne, this]
        · exact hall u hu'

theorem setFinished_name (n : String) (tEnd : Int) (t : TaskPriority) :
    (setFinished n tEnd t).name = t.name := by
  unfold setFinished
  split <;> rfl

theorem completeTask_names (q : List TaskPriority) (n : String) (tEnd : Int) :
    (completeTask q n tEnd).map (·.name) = q.map (·.name) := by
  unfold completeTask
  rw [List.map_map]
  exact List.map_congr_left fun t _ => setFinished_name n tEnd t

theorem completeTask_inv {q : List TaskPriority} {out : List String}
    (n : String) (tEnd : Int) (hout : out.Nodup)
    (hinv : ∀ t ∈ q, t.isRunning = true ↔ t.name ∈ out) :
    ∀ t ∈ completeTask q n tEnd, t.isRunning = true ↔ t.name ∈ out.erase n := by
  intro t ht
  obtain ⟨u, hu, rfl⟩ := List.mem_map.mp ht
  unfold setFinished
  by_cases hn : u.name = n
  · rw [if_pos hn]
    simp [hn, hout.mem_erase_iff]
  · rw [if_neg hn]
    show u.isRunning = true ↔ u.name ∈ out.erase n
    rw [hinv u hu, hout.mem_erase_iff]
    exact ⟨fun hm => ⟨hn, hm⟩, fun hm => hm.2⟩

theorem schedInv_init : SchedInv initState := by
  have hall : ∀ t ∈ initState.queue, t.isRunning = false := by decide
  refine ⟨by decide, by simp [initState], ?_⟩
  intro t ht
  rw [hall t ht]
  simp [initState]

theorem schedInv_step {s s' : SchedState} (h : SchedStep s s')
    (hi : SchedInv s) : SchedInv s' := by
  obtain ⟨hnames, hout, hinv⟩ := hi
  cases h with
  | tick now n q' hse =>
    obtain ⟨hnot, hall⟩ := startEligible_inv s.outstanding hse hnames hinv
    refine ⟨?_, ?_, hall⟩
    · rw [startEligible_names hse]; exact hnames
    · rw [List.nodup_append]
      exact ⟨hout, List.nodup_singleton n, by
        intro a ha hb
        rw [List.mem_singleton] at hb
        exact hnot (hb ▸ ha)⟩
  | finish n tEnd hmem =>
    exact ⟨(completeTask_names s.queue n tEnd) ▸ hnames, hout.erase n,
      completeTask_inv n tEnd hout hinv⟩

theorem schedInv_reachable {s : SchedState} (h : Reachable s) : SchedInv s := by
  induction h with
  | refl => exact schedInv_init
  | tail _ hstep ih => exact schedInv_step hstep ih

theorem startEligible_mem_of_ne {q : List TaskPriority} {now : Int}
    {n : String} {q' : List TaskPriority}
    (h : startEligible q now = some (n, q')) :
    ∀ u ∈ q', u.name ≠ n → u ∈ q := by
  induction q generalizing q' with
  | nil => simp [startEligible] at h
  | cons t ts ih =>
    rw [startEligible] at h
    by_cases he : eligibleB t now = true
    · rw [if_pos he] at h
      obtain ⟨h1, h2⟩ := Prod.mk.injEq .. ▸ Option.some.inj h
      subst h1 h2
      intro u hu hne
      rcases List.mem_cons.mp hu with rfl | hu'
      · exact absurd rfl hne
      · exact List.mem_cons_of_mem _ hu'
    · rw [if_neg he] at h
      cases hse : startEligible ts now with
      | none => rw [hse] at h; exact absurd h (by simp)
      | some p =>
        obtain ⟨m, ts'⟩ := p
        rw [hse] at h
        obtain ⟨h1, h2⟩ := Prod.mk.injEq .. ▸ Option.some.inj h
        subst h1 h2
        intro u hu hne
        rcases List.mem_cons.mp hu with rfl | hu'
        · exact List.mem_cons_self _ _
        · exact List.mem_cons_of_mem _ (ih hse u hu' hne)

/-! ## C1: global mutual exclusion -/

/-- C1, counterexample: the claim that at most one job descriptor has
isRunning = true at every reachable instant is false.  The constructor
installs setInterval(processNextTask, 1000) without awaiting the
previous invocation, so while the readGifts body started by one tick
is still suspended, the next tick finds readChatAndReply eligible
(its own isRunning is false) and starts it: the state with both
readGifts and readChatAndReply marked running is reachable. -/
theorem c1_counterexample :
    Reachable twoRunningState ∧
      twoRunningState.queue.countP (·.isRunning) = 2 := by
  constructor
  · have h1 : SchedStep initState
        { queue := giftsRunningQueue, outstanding := ["readGifts"] } :=
      SchedStep.tick initState 1000000 "readGifts" giftsRunningQueue rfl
    have h2 : SchedStep
        { queue := giftsRunningQueue, outstanding := ["readGifts"] }
        twoRunningState :=
      SchedStep.tick _ 1001000 "readChatAndReply" twoRunningQueue rfl
    exact Relation.ReflTransGen.tail (Relation.ReflTransGen.tail
      Relation.ReflTransGen.refl h1) h2
  · decide

/-- C1, amended: mutual exclusion holds per job, not globally.  In
every reachable state the outstanding invocations execute pairwise
distinct jobs, a descriptor is marked running exactly while an
invocation of it is outstanding, and a tick never starts a job whose
previous execution is still outstanding; but distinct jobs can be
running at once (see the counterexample). -/
theorem c1_per_job_exclusion :
    ∀ s : SchedState, Reachable s →
      (s.outstanding.Nodup ∧
        ∀ t ∈ s.queue, t.isRunning = true ↔ t.name ∈ s.outstanding) ∧
      ∀ (now : Int) (n : String) (q' : List TaskPriority),
        startEligible s.queue now = some (n, q') → n ∉ s.outstanding := by
  intro s hs
  obtain ⟨hnames, hout, hinv⟩ := schedInv_reachable hs
  refine ⟨⟨hout, hinv⟩, ?_⟩
  intro now n q' hse
  exact (startEligible_inv s.outstanding hse hnames hinv).1

/-- C1 witness: the per-job exclusion theorem applied to the initial
state and its first registry entry. -/
theorem c1_per_job_exclusion_witness :
    ({ name := "readGifts", priority := 1, minInterval := 25000 } :
        TaskPriority).isRunning = true ↔
      "readGifts" ∈ initState.outstanding :=
  (c1_per_job_exclusion initState Relation.ReflTransGen.refl).1.2 _ (by decide)

/-! ## C2: tick selection -/

/-- C2, counterexample: the claim reads a missing lastRun as eligible
immediately (the spec says minus infinity), but processNextTask
computes now - (task.lastRun || 0), treating it as 0: at now = 0 the
fresh readGifts descriptor is eligible under the claim's predicate yet
the tick's find comes back empty and nothing is selected or
modified. -/
theorem c2_counterexample :
    specEligible
        { name := "readGifts", priority := 1, minInterval := 25000 } 0 = true ∧
      taskQueue.find? (fun t => eligibleB t 0) = none ∧
      processNextTask taskQueue 0 (Except.ok ()) 0 = (taskQueue, []) :=
  ⟨rfl, rfl, rfl⟩

/-- C2, amended: the tick selects the first job in registry iteration
order satisfying isRunning = false and now - (lastRun or 0) >=
minInterval, so a job with a missing lastRun is eligible once now >=
minInterval (immediate for an epoch-millisecond clock); if no job
satisfies the predicate the tick returns without modifying any
descriptor; with the fixed registry and every job eligible, readGifts
is selected. -/
theorem c2_tick_selection :
    (∀ (q : List TaskPriority) (now : Int),
      (startEligible q now).map (fun p => p.1) =
        (q.find? (fun t => eligibleB t now)).map (fun t => t.name)) ∧
    (∀ (q : List TaskPriority) (now tEnd : Int) (outcome : Except String Unit),
      startEligible q now = none →
        processNextTask q now outcome tEnd = (q, [])) ∧
    (startEligible taskQueue 1000000).map (fun p => p.1) = some "readGifts" := by
  refine ⟨?_, ?_, rfl⟩
  · intro q now
    induction q with
    | nil => simp [startEligible]
    | cons t ts ih =>
      rw [startEligible]
      by_cases he : eligibleB t now = true
      · have hf : (t :: ts).find? (fun u => eligibleB u now) = some t :=
          List.find?_cons_of_pos _ he
        rw [if_pos he, hf]
        rfl
      · have hf : (t :: ts).find? (fun u => eligibleB u now) =
            ts.find? (fun u => eligibleB u now) :=
          List.find?_cons_of_neg _ (by simpa using he)
        rw [if_neg he, hf]
        cases hse : startEligible ts now with
        | none => rw [hse] at ih; simpa using ih
        | some p => obtain ⟨m, ts'⟩ := p; rw [hse] at ih; simpa using ih
  · intro q now tEnd outcome h
    unfold processNextTask
    rw [h]

/-- C2 witness: no job is selected and the registry is untouched at
now = 0 with every lastRun missing. -/
theorem c2_tick_selection_witness :
    processNextTask taskQueue 0 (Except.ok ()) 0 = (taskQueue, []) :=
  c2_tick_selection.2.1 taskQueue 0 0 (Except.ok ()) rfl

/-! ## C3: unconditional bookkeeping and error isolation -/

/-- C3, counterexample: the claim's consequence that after any
completed tick no job is left with isRunning = true fails under the
interleaving the 1-second setInterval permits: with readGifts and
readChatAndReply both started, the tick running readChatAndReply
completes (its finally block runs) while readGifts is still
suspended, leaving readGifts marked running after that completed
tick. -/
theorem c3_counterexample :
    Reachable twoRunningState ∧
      SchedStep twoRunningState afterChatFinishState ∧
      Reachable afterChatFinishState ∧
      afterChatFinishState.queue.countP (·.isRunning) = 1 := by
  have h1 : SchedStep initState
      { queue := giftsRunningQueue, outstanding := ["readGifts"] } :=
    SchedStep.tick initState 1000000 "readGifts" giftsRunningQueue rfl
  have h2 : SchedStep
      { queue := giftsRunningQueue, outstanding := ["readGifts"] }
      twoRunningState :=
    SchedStep.tick _ 1001000 "readChatAndReply" twoRunningQueue rfl
  have hreach : Reachable twoRunningState :=
    Relation.ReflTransGen.tail (Relation.ReflTransGen.tail
      Relation.ReflTransGen.refl h1) h2
  have h3 : SchedStep twoRunningState afterChatFinishState :=
    SchedStep.finish twoRunningState "readChatAndReply" 1002000 (by decide)
  exact ⟨hreach, h3, Relation.ReflTransGen.tail hreach h3, by decide⟩

/-- C3, amended: for every job body execution started by a tick, a
thrown error is logged and never rethrown past the tick boundary
(processNextTask is total and returns the log), the registry outcome
is independent of whether the body returned or threw, and the finally
block sets the executed job's lastRun to the completion time and
clears its isRunning, unconditionally; consequently the job the tick
executed is never left running, and when no other execution was
outstanding (all descriptors idle at tick start) no job at all is left
with isRunning = true. -/
theorem c3_bookkeeping :
    (∀ (q : List TaskPriority) (now tEnd : Int)
        (o o' : Except String Unit),
        (processNextTask q now o tEnd).1 = (processNextTask q now o' tEnd).1) ∧
    (∀ (q : List TaskPriority) (now tEnd : Int) (n : String)
        (q' : List TaskPriority) (e : String),
        startEligible q now = some (n, q') →
          (processNextTask q now (.error e) tEnd).2 =
            ["Error executing task " ++ n ++ ": " ++ e]) ∧
    (∀ (q : List TaskPriority) (now tEnd : Int) (n : String)
        (q' : List TaskPriority) (outcome : Except String Unit),
        startEligible q now = some (n, q') →
          ∀ t ∈ (processNextTask q now outcome tEnd).1,
            t.name = n → t.lastRun = some tEnd ∧ t.isRunning = false) ∧
    (∀ (q : List TaskPriority) (now tEnd : Int) (outcome : Except String Unit),
        (∀ t ∈ q, t.isRunning = false) →
          ∀ t ∈ (processNextTask q now outcome tEnd).1, t.isRunning = false) := by
  refine ⟨?_, ?_, ?_, ?_⟩
  · intro q now tEnd o o'
    unfold processNextTask
    cases startEligible q now with
    | none => rfl
    | some p => rfl
  · intro q now tEnd n q' e h
    unfold processNextTask
    rw [h]
  · intro q now tEnd n q' outcome h t ht hname
    unfold processNextTask at ht
    rw [h] at ht
    obtain ⟨u, hu, rfl⟩ := List.mem_map.mp ht
    unfold setFinished at hname ⊢
    by_cases hn : u.name = n
    · rw [if_pos hn]
      exact ⟨rfl, rfl⟩
    · rw [if_neg hn] at hname
      exact absurd hname hn
  · intro q now tEnd outcome hall t ht
    unfold processNextTask at ht
    cases hse : startEligible q now with
    | none => rw [hse] at ht; exact hall t ht
    | some p =>
      obtain ⟨n, q'⟩ := p
      rw [hse] at ht
      obtain ⟨u, hu, rfl⟩ := List.mem_map.mp ht
      unfold setFinished
      by_cases hn : u.name = n
      · rw [if_pos hn]
      · rw [if_neg hn]
        exact hall u (startEligible_mem_of_ne hse u hu hn)

/-- C3 witness: a tick at t = 1000000 whose body throws still records
lastRun = 1000500 and isRunning = false on the readGifts descriptor,
and the error surfaces only as a log line. -/
theorem c3_bookkeeping_witness :
    (({ name := "readGifts", priority := 1, minInterval := 25000,
        lastRun := some 1000500 } : TaskPriority).lastRun = some 1000500 ∧
      ({ name := "readGifts", priority := 1, minInterval := 25000,
          lastRun := some 1000500 } : TaskPriority).isRunning = false) ∧
    (processNextTask taskQueue 1000000 (Except.error "boom") 1000500).2 =
      ["Error executing task readGifts: boom"] :=
  ⟨c3_bookkeeping.2.2.1 taskQueue 1000000 1000500 "readGifts"
      giftsRunningQueue (Except.error "boom") rfl _ (by decide) rfl,
    c3_bookkeeping.2.1 taskQueue 1000000 1000500 "readGifts"
      giftsRunningQueue "boom" rfl⟩

/-! ## Shared lemmas about the effect traces -/

theorem truthy_half : truthy (JSVal.num (1 / 2)) = true := by
  simp only [truthy, decide_eq_true_eq]
  norm_num

theorem truthy_shouldTranscribe_iceCream (rand : Bool) :
    truthy (shouldTranscribe "Ice Cream" rand) = true := by
  rw [shouldTranscribe, if_pos rfl]
  exact truthy_half

theorem commentMemoryIteration_tdz (agentId : String) (c : IComment) :
    commentMemoryIteration agentId tdzCommentScope c =
      .error "ReferenceError" := rfl

theorem settledMemoryEffects_tdz (agentId : String)
    (comments : List IComment) :
    settledMemoryEffects agentId tdzCommentScope comments = [] := by
  unfold settledMemoryEffects
  induction comments with
  | nil => rfl
  | cons c cs ih =>
    rw [List.map_cons, commentMemoryIteration_tdz]
    simpa using ih

/-! ## C4: speech failure is non-fatal -/

/-- C4, counterexample: in processGift the generateSpeech await has no
surrounding try/catch, so when speech synthesis fails for a gift that
triggers it (here an Ice Cream gift, which always does, with the
random draw at false), processGift aborts with the speech error and no
response is published for that gift; the claim that every
speech-requesting job continues to its publish step is false. -/
theorem c4_counterexample :
    (processGift "agent"
        { giftDbId := "g1", giftName := "Ice Cream", giftCount := 1,
          coinsTotal := 10, senderPublicKey := "pk", handle := "h",
          avatar := "a" }
        (.ok ()) (some { text := "thanks" }) false (.error "speech down")
        true 0).2 = .error "speech down" ∧
      publishedAudio ((processGift "agent"
        { giftDbId := "g1", giftName := "Ice Cream", giftCount := 1,
          coinsTotal := 10, senderPublicKey := "pk", handle := "h",
          avatar := "a" }
        (.ok ()) (some { text := "thanks" }) false (.error "speech down")
        true 0).1) = [] := by
  constructor <;>
    simp [processGift, truthy_shouldTranscribe_iceCream, publishedAudio]

/-- C4, amended: speech failure is non-fatal for the chat reply, the
fresh thought and the peer-room reply, whose generateSpeech call sits
in an inner try/catch: each still publishes exactly one message with
no audio attached.  The gift job has no such guard and aborts (see the
counterexample). -/
theorem c4_speech_nonfatal :
    (∀ (st : ClientState) (agentId thought e : String) (publishOk : Bool)
        (now : Int), thought ≠ "" →
        publishedAudio ((generateAndShareFreshThought st agentId thought
          (.error e) publishOk now).2) = [none]) ∧
    (∀ (agentId : String) (c : IComment) (markOutcome : Except String Unit)
        (sel : String) (rc : Content) (anim e : String) (status now : Int),
        publishedAudio ((processComments agentId [c] markOutcome sel
          (some rc) anim (.error e) status now).1) = [none]) ∧
    (∀ (st : ClientState) (agentId charName : String) (m : RoomMessage)
        (p : ParsedResponse) (e : String) (now : Int),
        st.lastAgentChatMessageId ≠ some m.id → m.agentId ≠ agentId →
        p.text ≠ "" →
        postedRoomAudio ((readAgentChatAndReply st agentId charName true
          (some [m]) (some p) (.error e) now).2) = [none]) := by
  refine ⟨?_, ?_, ?_⟩
  · intro st agentId thought e publishOk now ht
    unfold generateAndShareFreshThought
    rw [if_neg ht]
    cases publishOk <;> simp [publishedAudio]
  · intro agentId c markOutcome sel rc anim e status now
    unfold processComments
    simp only [List.map_cons, List.map_nil, List.isEmpty_cons,
      settledMemoryEffects_tdz]
    rw [if_neg (by simp)]
    have hfind : [c].find? (fun u => u.id == c.id) = some c := by
      simp [List.find?]
    simp only [hfind]
    cases markOutcome <;> by_cases hm : c.message ≠ "" <;>
      by_cases hs : status ≠ 200 <;>
      simp [publishedAudio, hm, hs]
  · intro st agentId charName m p e now hid hagent htext
    simp [readAgentChatAndReply, hid, hagent, htext, postedRoomAudio]

/-- C4 witness: concrete runs of the three guarded jobs with a
failing speech service still publish, with no audio. -/
theorem c4_speech_nonfatal_witness :
    publishedAudio ((generateAndShareFreshThought
      { lastProcessedTimestamp := none, lastAgentChatMessageId := none }
      "agent" "a thought" (.error "down") true 0).2) = [none] ∧
    publishedAudio ((processComments "agent"
      [{ id := "c1", user := "u", message := "hello" }]
      (.ok ()) "sel" (some { text := "reply" }) "idle" (.error "down")
      200 0).1) = [none] ∧
    postedRoomAudio ((readAgentChatAndReply
      { lastProcessedTimestamp := none, lastAgentChatMessageId := none }
      "agent" "Aiko" true
      (some [{ id := "m1", agentId := "peer", agentName := "P",
               message := "hi" }])
      (some { text := "hello" }) (.error "down") 0).2) = [none] :=
  ⟨c4_speech_nonfatal.1 _ "agent" "a thought" "down" true 0 (by decide),
    c4_speech_nonfatal.2.1 "agent" _ (.ok ()) "sel" _ "idle" "down" 200 0,
    c4_speech_nonfatal.2.2 _ "agent" "Aiko" _ _ "down" 0 (by decide)
      (by decide) (by decide)⟩

/-! ## C5: ownership of the two shared fields -/

/-- C5, counterexample: the peer-room job also mutates the comment
watermark: on its successful-reply path readAgentChatAndReply's last
line sets lastProcessedTimestamp to the current time, here changing it
from 5 to 99. -/
theorem c5_counterexample :
    ((readAgentChatAndReply
      { lastProcessedTimestamp := some 5, lastAgentChatMessageId := none }
      "agent" "Aiko" true
      (some [{ id := "m1", agentId := "peer", agentName := "P",
               message := "hi" }])
      (some { text := "hello" }) (.ok "url") 99).1).lastProcessedTimestamp
      = some 99 := rfl

/-- C5, amended: the last-processed peer-message id is mutated only by
the peer-room job; the watermark is mutated by the comment-ingestion
job and additionally by the peer-room job on its successful-reply path
(where it becomes the current time); every other job invocation leaves
both fields unchanged. -/
theorem c5_frame :
    (∀ (st : ClientState) (agentId : String) (runs : List GiftRun)
        (now : Int), (readGifts st agentId runs now).1 = st) ∧
    (∀ (st : ClientState) (agentId : String)
        (fetchOutcome : Except String (List TopLiker)) (draw : Nat)
        (parsed : Option ParsedResponse) (publishOk : Bool) (now : Int),
        (readAndRespondToTopLikers st agentId fetchOutcome draw parsed
          publishOk now).1 = st) ∧
    (∀ (st : ClientState) (agentId thought : String)
        (speech : Except String String) (publishOk : Bool) (now : Int),
        (generateAndShareFreshThought st agentId thought speech publishOk
          now).1 = st) ∧
    (∀ (st : ClientState) (agentId anim : String) (publishOk : Bool),
        (generateAndSharePeriodicAnimation st agentId anim publishOk).1 = st) ∧
    (∀ st : ClientState, (heartbeat st).1 = st) ∧
    (∀ (st : ClientState) (agentId : String)
        (response : Except String (List IComment))
        (markOutcome : Except String Unit) (sel : String)
        (rc : Option Content) (anim : String)
        (speech : Except String String) (status now : Int),
        ((readChatAndReply st agentId response markOutcome sel rc anim
          speech status now).1).lastAgentChatMessageId =
            st.lastAgentChatMessageId) ∧
    (∀ (st : ClientState) (agentId charName : String) (isInChat : Bool)
        (fetchOutcome : Option (List RoomMessage))
        (parsed : Option ParsedResponse) (speech : Except String String)
        (now : Int),
        ((readAgentChatAndReply st agentId charName isInChat fetchOutcome
          parsed speech now).1).lastProcessedTimestamp =
            st.lastProcessedTimestamp ∨
        ((readAgentChatAndReply st agentId charName isInChat fetchOutcome
          parsed speech now).1).lastProcessedTimestamp = some now) := by
  refine ⟨fun _ _ _ _ => rfl, fun _ _ _ _ _ _ _ => rfl,
    fun _ _ _ _ _ _ => rfl, fun _ _ _ _ => rfl, fun _ => rfl, ?_, ?_⟩
  · intro st agentId response markOutcome sel rc anim speech status now
    unfold readChatAndReply
    dsimp only
    split
    · split <;> rfl
    · rfl
  · intro st agentId charName isInChat fetchOutcome parsed speech now
    unfold readAgentChatAndReply
    dsimp only
    split
    · exact Or.inl rfl
    · split
      · exact Or.inl rfl
      · split
        · exact Or.inl rfl
        · split
          · exact Or.inl rfl
          · split
            · exact Or.inl rfl
            · split
              · exact Or.inl rfl
              · split
                · exact Or.inl rfl
                · exact Or.inr rfl

/-! ## C6: the comment watermark advances unconditionally -/

theorem processComments_ok (agentId : String) (comments : List IComment)
    (markOutcome : Except String Unit) (sel : String) (rc : Content)
    (anim : String) (speech : Except String String) (status now : Int) :
    (processComments agentId comments markOutcome sel (some rc) anim speech
      status now).2 = .ok () := by
  rcases comments with _ | ⟨c, _ | ⟨d, rest⟩⟩
  · rfl
  · simp [processComments, List.find?]
  · by_cases hsel : sel = "NONE"
    · simp [processComments, selectCommentToRespondTo, hsel]
    · simp only [processComments, selectCommentToRespondTo, hsel]
      split
      · simp_all
      · simp_all
        split <;> rfl

theorem processComments_singleton_none (agentId : String) (c : IComment)
    (markOutcome : Except String Unit) (sel : String) (anim : String)
    (speech : Except String String) (status now : Int) :
    (processComments agentId [c] markOutcome sel none anim speech status
      now).2 = .error "TypeError" := by
  simp [processComments, List.find?]

/-- C6, counterexample: the claim's 'for every invocation,
unconditionally' fails: with one pending comment and a null
generateMessageResponse result, _generateResponse returns undefined,
the following responseContent.text assignment throws a TypeError that
readChatAndReply's catch swallows, and the watermark write after the
if-block is skipped — the watermark stays at 5 instead of advancing
to 99. -/
theorem c6_counterexample :
    ((readChatAndReply
      { lastProcessedTimestamp := some 5, lastAgentChatMessageId := none }
      "agent" (.ok [{ id := "c1", user := "u", message := "hi" }])
      (.ok ()) "ignored" none "idle" (.ok "url") 200
      99).1).lastProcessedTimestamp = some 5 := by
  simp [readChatAndReply, fetchUnreadComments, processComments, List.find?]

/-- C6, amended: the comment-ingestion job sets the watermark to the
current time after processing regardless of batch size (including the
empty batch), and a failed fetch still advances it, because
fetchUnreadComments catches both network errors and non-ok statuses
and returns an empty comments array; a non-empty batch also advances
it whenever the response-generation call returns content; but when
processing throws — a null generation result makes the
responseContent.text write throw a TypeError — the catch skips the
update and the invocation leaves the watermark unchanged. -/
theorem c6_watermark_amended :
    (∀ (st : ClientState) (agentId err : String)
        (markOutcome : Except String Unit) (sel : String)
        (rc : Option Content) (anim : String)
        (speech : Except String String) (status now : Int),
        ((readChatAndReply st agentId (.error err) markOutcome sel rc anim
          speech status now).1).lastProcessedTimestamp = some now) ∧
    (∀ (st : ClientState) (agentId : String)
        (markOutcome : Except String Unit) (sel : String)
        (rc : Option Content) (anim : String)
        (speech : Except String String) (status now : Int),
        ((readChatAndReply st agentId (.ok []) markOutcome sel rc anim
          speech status now).1).lastProcessedTimestamp = some now) ∧
    (∀ (st : ClientState) (agentId : String) (comments : List IComment)
        (markOutcome : Except String Unit) (sel : String) (rc : Content)
        (anim : String) (speech : Except String String) (status now : Int),
        ((readChatAndReply st agentId (.ok comments) markOutcome sel
          (some rc) anim speech status now).1).lastProcessedTimestamp =
          some now) ∧
    (∀ (st : ClientState) (agentId : String) (c : IComment)
        (markOutcome : Except String Unit) (sel : String) (anim : String)
        (speech : Except String String) (status now : Int),
        (readChatAndReply st agentId (.ok [c]) markOutcome sel none anim
          speech status now).1 = st) := by
  refine ⟨fun _ _ _ _ _ _ _ _ _ _ => rfl, fun _ _ _ _ _ _ _ _ _ => rfl,
    ?_, ?_⟩
  · intro st agentId comments markOutcome sel rc anim speech status now
    unfold readChatAndReply
    dsimp only
    split
    · have hok := processComments_ok agentId
        (fetchUnreadComments (.ok comments)) markOutcome sel rc anim
        speech status now
      split
      · rfl
      · rename_i effs e heq
        rw [heq] at hok
        exact absurd hok (by simp)
    · rfl
  · intro st agentId c markOutcome sel anim speech status now
    unfold readChatAndReply
    dsimp only [fetchUnreadComments]
    rw [if_pos (by simp)]
    have hne := processComments_singleton_none agentId c markOutcome sel
      anim speech status now
    cases hp : processComments agentId [c] markOutcome sel none anim
        speech status now with
    | mk effs r =>
      rw [hp] at hne
      simp only at hne
      subst hne
      rfl

/-! ## C7: comment selection -/

/-- C7: with zero pending comments nothing is selected, nothing marked
read and nothing published; with exactly one comment that comment is
auto-selected with no Generation Service selection call and the reply
targets it; with more than one comment the Generation Service is
consulted, and either the sentinel NONE or an id matching no comment
in the batch yields no published reply. -/
theorem c7_comment_selection :
    (∀ (agentId : String) (markOutcome : Except String Unit) (sel : String)
        (rc : Option Content) (anim : String)
        (speech : Except String String) (status now : Int),
        processComments agentId [] markOutcome sel rc anim speech status
          now = ([], .ok ())) ∧
    (∀ (agentId : String) (c : IComment) (markOutcome : Except String Unit)
        (sel : String) (rc : Content) (anim : String)
        (speech : Except String String) (status now : Int),
        Effect.generateSelection ∉
          (processComments agentId [c] markOutcome sel (some rc) anim
            speech status now).1 ∧
        publishedReplyTo ((processComments agentId [c] markOutcome sel
          (some rc) anim speech status now).1) = [some c.id]) ∧
    (∀ (agentId : String) (c d : IComment) (rest : List IComment)
        (markOutcome : Except String Unit) (rc : Option Content)
        (anim : String) (speech : Except String String) (status now : Int),
        Effect.generateSelection ∈
          (processComments agentId (c :: d :: rest) markOutcome "NONE" rc
            anim speech status now).1 ∧
        publishedReplyTo ((processComments agentId (c :: d :: rest)
          markOutcome "NONE" rc anim speech status now).1) = []) ∧
    (∀ (agentId : String) (c d : IComment) (rest : List IComment)
        (markOutcome : Except String Unit) (sel : String)
        (rc : Option Content) (anim : String)
        (speech : Except String String) (status now : Int),
        sel ≠ "NONE" → sel ∉ (c :: d :: rest).map (·.id) →
        publishedReplyTo ((processComments agentId (c :: d :: rest)
          markOutcome sel rc anim speech status now).1) = []) := by
  refine ⟨fun _ _ _ _ _ _ _ _ => rfl, ?_, ?_, ?_⟩
  · intro agentId c markOutcome sel rc anim speech status now
    constructor
    · simp only [processComments, settledMemoryEffects_tdz]
      rcases markOutcome with _ | e <;>
        rcases speech with url | e <;>
        by_cases hm : c.message = "" <;>
        by_cases hs : status ≠ 200 <;>
        simp_all [List.find?, publishedReplyTo]
    · simp only [processComments, settledMemoryEffects_tdz]
      rcases markOutcome with _ | e <;>
        rcases speech with url | e <;>
        by_cases hm : c.message = "" <;>
        by_cases hs : status ≠ 200 <;>
        simp_all [List.find?, publishedReplyTo]
  · intro agentId c d rest markOutcome rc anim speech status now
    constructor <;>
      · rcases markOutcome with _ | e <;>
          simp [processComments, selectCommentToRespondTo,
            settledMemoryEffects_tdz, publishedReplyTo]
  · intro agentId c d rest markOutcome sel rc anim speech status now hsel hmem
    have hfind : (c :: d :: rest).find? (fun u => u.id == sel) = none := by
      rw [List.find?_eq_none]
      intro x hx
      simp only [beq_iff_eq]
      intro hxe
      exact hmem (hxe ▸ List.mem_map_of_mem (·.id) hx)
    rcases markOutcome with _ | e <;>
      simp [processComments, selectCommentToRespondTo,
        settledMemoryEffects_tdz, hsel, hfind, publishedReplyTo]

/-- C7 witness: a singleton batch is auto-selected, and a two-comment
batch with the sentinel answer publishes nothing. -/
theorem c7_comment_selection_witness :
    publishedReplyTo ((processComments "agent"
      [{ id := "c1", user := "u", message := "hi" }]
      (.ok ()) "ignored" (some { text := "reply" }) "idle" (.ok "url")
      200 0).1) = [some "c1"] ∧
    publishedReplyTo ((processComments "agent"
      [{ id := "c1", user := "u", message := "hi" },
       { id := "c2", user := "v", message := "yo" }]
      (.ok ()) "NONE" (some { text := "reply" }) "idle" (.ok "url")
      200 0).1) = [] ∧
    publishedReplyTo ((processComments "agent"
      [{ id := "c1", user := "u", message := "hi" },
       { id := "c2", user := "v", message := "yo" }]
      (.ok ()) "c999" (some { text := "reply" }) "idle" (.ok "url")
      200 0).1) = [] :=
  ⟨(c7_comment_selection.2.1 "agent" _ (.ok ()) "ignored" _ "idle"
      (.ok "url") 200 0).2,
    (c7_comment_selection.2.2.1 "agent" _ _ [] (.ok ())
      (some { text := "reply" }) "idle" (.ok "url") 200 0).2,
    c7_comment_selection.2.2.2 "agent" _ _ [] (.ok ()) "c999"
      (some { text := "reply" }) "idle" (.ok "url") 200 0 (by decide)
      (by decide)⟩

/-! ## C8: the special gift always gets speech -/

/-- C8: a gift named Ice Cream always triggers speech synthesis and
attaches the audio URL to the published response, independent of the
50 percent draw: the ternary produces the number 0.5 in that branch,
which is truthy, so both the synthesis guard and the audioUrl ternary
take the speech path for either draw outcome. -/
theorem c8_ice_cream_speech :
    ∀ (agentId : String) (gift : Gift) (memOutcome : Except String Unit)
      (p : ParsedResponse) (rand : Bool) (url : String) (publishOk : Bool)
      (now : Int), gift.giftName = "Ice Cream" →
      Effect.requestSpeech p.text ∈
        (processGift agentId gift memOutcome (some p) rand (.ok url)
          publishOk now).1 ∧
      publishedAudio ((processGift agentId gift memOutcome (some p) rand
        (.ok url) publishOk now).1) = [some url] := by
  intro agentId gift memOutcome p rand url publishOk now hname
  have ht : truthy (shouldTranscribe gift.giftName rand) = true := by
    rw [hname]
    exact truthy_shouldTranscribe_iceCream rand
  constructor <;>
    · simp only [processGift, ht]
      rcases memOutcome with _ | e <;> cases publishOk <;>
        simp [publishedAudio]

/-- C8 witness: an Ice Cream gift with the draw at false (which would
skip speech for any other gift) still requests speech and publishes
with the audio URL attached. -/
theorem c8_ice_cream_speech_witness :
    Effect.requestSpeech "yum" ∈
      (processGift "agent"
        { giftDbId := "g1", giftName := "Ice Cream", giftCount := 1,
          coinsTotal := 10, senderPublicKey := "pk", handle := "h",
          avatar := "a" }
        (.ok ()) (some { text := "yum" }) false (.ok "url") true 0).1 ∧
    publishedAudio ((processGift "agent"
      { giftDbId := "g1", giftName := "Ice Cream", giftCount := 1,
        coinsTotal := 10, senderPublicKey := "pk", handle := "h",
        avatar := "a" }
      (.ok ()) (some { text := "yum" }) false (.ok "url") true 0).1) =
      [some "url"] :=
  c8_ice_cream_speech "agent" _ (.ok ()) _ false "url" true 0 rfl

/-! ## C9: animation validation -/

/-- C9: the periodic-animation job trims and lowercases the generated
string and checks it against the fixed catalog: a miss produces only
the warning log (no publish call, no fallback), a hit publishes the
cleaned animation. -/
theorem c9_animation_validation :
    ∀ (st : ClientState) (agentId animation : String) (publishOk : Bool),
      (getAllAnimations.contains (jsToLower (jsTrim animation)) = false →
        (generateAndSharePeriodicAnimation st agentId animation
          publishOk).2 =
          [Effect.generateAnimation,
           Effect.logWarn ("Invalid animation generated: " ++
             jsToLower (jsTrim animation) ++ ", defaulting to idle")]) ∧
      (getAllAnimations.contains (jsToLower (jsTrim animation)) = true →
        (generateAndSharePeriodicAnimation st agentId animation
          publishOk).2 =
          [Effect.generateAnimation,
           Effect.publishAnimation agentId (jsToLower (jsTrim animation))] ++
            (if publishOk then []
             else [Effect.logError "Failed to post periodic animation"])) := by
  intro st agentId animation publishOk
  constructor
  · intro hc
    unfold generateAndSharePeriodicAnimation
    dsimp only
    rw [hc]
    rfl
  · intro hc
    unfold generateAndSharePeriodicAnimation
    dsimp only
    rw [hc]
    rfl

/-- C9 witness: the uncatalogued value flying is only warned about,
while a padded, capitalised catalog member is cleaned and
published. -/
theorem c9_animation_validation_witness :
    (generateAndSharePeriodicAnimation
      { lastProcessedTimestamp := none, lastAgentChatMessageId := none }
      "agent" "flying" true).2 =
      [Effect.generateAnimation,
       Effect.logWarn
         "Invalid animation generated: flying, defaulting to idle"] ∧
    (generateAndSharePeriodicAnimation
      { lastProcessedTimestamp := none, lastAgentChatMessageId := none }
      "agent" " Dancing_Twerk " true).2 =
      [Effect.generateAnimation,
       Effect.publishAnimation "agent" "dancing_twerk"] :=
  ⟨(c9_animation_validation _ "agent" "flying" true).1 (by decide),
    (c9_animation_validation _ "agent" " Dancing_Twerk " true).2 (by decide)⟩

/-! ## C10: the dead bulk memory loop -/

/-- C10: in processComments the Promise.allSettled loop references
userMessage, userIdUUID and content before their const declarations
later in the function body, so every iteration throws a ReferenceError
that allSettled swallows: the bulk step contributes no createMemory
call for any batch, and the only durable memory recorded is the one
separately constructed for the selected comment. -/
theorem c10_dead_bulk_memory :
    (∀ (agentId : String) (c : IComment),
      commentMemoryIteration agentId tdzCommentScope c =
        .error "ReferenceError") ∧
    (∀ (agentId : String) (comments : List IComment),
      settledMemoryEffects agentId tdzCommentScope comments = []) ∧
    (∀ (agentId : String) (c : IComment) (markOutcome : Except String Unit)
        (sel : String) (rc : Content) (anim : String)
        (speech : Except String String) (status now : Int),
        c.message ≠ "" →
        ((processComments agentId [c] markOutcome sel (some rc) anim speech
          status now).1).filter isCreateMemory =
          [Effect.createMemory (stringToUuid (c.id ++ "-" ++ agentId))]) := by
  refine ⟨commentMemoryIteration_tdz, settledMemoryEffects_tdz, ?_⟩
  intro agentId c markOutcome sel rc anim speech status now hm
  simp only [processComments, settledMemoryEffects_tdz]
  rcases markOutcome with _ | e <;>
    rcases speech with url | e <;>
    by_cases hs : status ≠ 200 <;>
    simp_all [List.find?, isCreateMemory, stringToUuid]

/-- C10 witness: a two-element batch yields no bulk memories, and the
singleton flow records exactly the selected comment's memory. -/
theorem c10_dead_bulk_memory_witness :
    settledMemoryEffects "agent"
      tdzCommentScope
      [{ id := "c1", user := "u", message := "hi" },
       { id := "c2", user := "v", message := "yo" }] = [] ∧
    ((processComments "agent" [{ id := "c1", user := "u", message := "hi" }]
      (.ok ()) "ignored" (some { text := "reply" }) "idle" (.ok "url")
      200 0).1).filter isCreateMemory =
      [Effect.createMemory "c1-agent"] :=
  ⟨c10_dead_bulk_memory.2.1 "agent" _,
    c10_dead_bulk_memory.2.2 "agent" _ (.ok ()) "ignored" _ "idle"
      (.ok "url") 200 0 (by decide)⟩

end Aiko
